import Mathlib

/-!
Shallow embedding of the `blog_with_users` Flask application
(`src/blog_with_users/main.py` and `src/blog_with_users/forms.py`).

The three ORM tables (`User`, `BlogPost`, `Comment`, main.py lines 40-66)
become records; the persisted database becomes a `Store` of three lists
plus autoincrement counters.  A request handler becomes a function from
(request data, session, store) to `Except PyExc HandlerOut`: the `Except`
layer models uncaught Python exceptions (which Flask surfaces as a server
error), and `HandlerOut` carries the persisted store after the request,
the session after the request, the response (rendered template, redirect,
or HTTP error code from `abort`), the flash messages emitted, and the
list of store snapshots taken at each `db.session.commit()` call.
Uncommitted ORM-session mutations are never visible in the persisted
store, and a handler that raises before committing leaves the persisted
store unchanged, which the `Except.error` branch models by carrying no
store at all.
-/

deriving instance DecidableEq for Except

namespace BlogApp

/-- ORM model `User` (main.py lines 40-47): integer primary key, unique
email, password hash, display name.  The `posts`/`comments` relationships
are represented through the `author_id` foreign keys on the other tables. -/
structure User where
  id : Nat
  email : String
  password : String
  name : String
deriving DecidableEq

/-- ORM model `BlogPost` (main.py lines 50-59): integer primary key,
`author_id` foreign key to `user.id`, unique title, subtitle, date string,
body, image URL. -/
structure BlogPost where
  id : Nat
  author_id : Option Nat
  title : String
  subtitle : String
  date : String
  body : String
  img_url : String
deriving DecidableEq

/-- ORM model `Comment` (main.py lines 61-66): integer primary key,
`author_id` foreign key to `user.id`, `post_id` foreign key to
`blog_posts.id`, text body. -/
structure Comment where
  id : Nat
  author_id : Option Nat
  post_id : Option Nat
  text : String
deriving DecidableEq

/-- The persisted relational store: the three tables plus the
autoincrement counters the database uses for primary keys. -/
structure Store where
  users : List User
  posts : List BlogPost
  comments : List Comment
  nextUserId : Nat
  nextPostId : Nat
  nextCommentId : Nat
deriving DecidableEq

/-- HTTP request method, as far as the routes distinguish them. -/
inductive Method where
  | GET
  | POST
deriving DecidableEq

/-- A handler response: a rendered template, a redirect to a named
endpoint (`url_for`), or an HTTP error produced by `abort` or by the
routing layer (403, 405, ...). -/
inductive Response where
  | render (template : String)
  | redirect (endpoint : String)
  | httpError (code : Nat)
deriving DecidableEq

/-- Uncaught Python exceptions that can escape a handler; Flask turns any
of these into a server error (HTTP 500) response. -/
inductive PyExc where
  | attributeError (msg : String)
  | typeError (msg : String)
  | unmappedInstanceError
  | integrityError
deriving DecidableEq

/-- The observable outcome of a request that did not raise: the persisted
store afterwards, the session afterwards (`some uid` when a user is logged
in), the response, the flash messages emitted, and the snapshot of the
persisted store at each `db.session.commit()` call made while handling
the request. -/
structure HandlerOut where
  store : Store
  sess : Option Nat
  response : Response
  flashes : List String
  commits : List Store
deriving DecidableEq

/-- Splits a character list at every occurrence of the separator
(structural recursion, so concrete inputs evaluate inside the kernel). -/
def splitOnChar (sep : Char) : List Char → List (List Char)
  | [] => [[]]
  | c :: cs =>
    match splitOnChar sep cs with
    | [] => [[]]
    | g :: gs => if c == sep then [] :: g :: gs else (c :: g) :: gs

/-- Modelled from the spec: the external `DataRequired` validator
(forms.py imports it from wtforms) fails exactly on empty or
whitespace-only input; its implementation is library code not under
`src/`. -/
def dataRequired (s : String) : Bool :=
  s.data.any (fun c => !c.isWhitespace)

/-- Modelled from the spec: the external `Email` validator checks that the
input is email-shaped; its implementation is library code not under
`src/`.  Modelled as one `@` with a nonempty local part and a nonempty
domain containing a dot. -/
def is_email (s : String) : Bool :=
  match splitOnChar '@' s.data with
  | [lp, dom] => !lp.isEmpty && !dom.isEmpty && dom.contains '.'
  | _ => false

/-- Modelled from the spec: the external `URL` validator checks that the
input is URL-shaped; its implementation is library code not under `src/`.
Modelled as an http(s) scheme followed by a nonempty host part containing
a dot. -/
def is_url (s : String) : Bool :=
  (List.isPrefixOf "http://".data s.data &&
    !(s.data.drop 7).isEmpty && (s.data.drop 7).contains '.') ||
  (List.isPrefixOf "https://".data s.data &&
    !(s.data.drop 8).isEmpty && (s.data.drop 8).contains '.')

/-- Field data submitted through `CreatePostForm` (forms.py lines 8-13).
The form declares no `author` field. -/
structure PostFormData where
  title : String
  subtitle : String
  img_url : String
  body : String
deriving DecidableEq

/-- `CreatePostForm` validation (forms.py lines 8-13): title, subtitle and
body are `DataRequired`; `img_url` is `DataRequired` and `URL`. -/
def createPostFormValid (f : PostFormData) : Bool :=
  dataRequired f.title && dataRequired f.subtitle &&
  (dataRequired f.img_url && is_url f.img_url) && dataRequired f.body

/-- Field data submitted through `UserForm` / `LoginForm`
(forms.py lines 21-28). -/
structure UserFormData where
  email : String
  password : String
  name : String
deriving DecidableEq

/-- `UserForm` validation (forms.py lines 21-25): email is `DataRequired`
and `Email`; password and name are `DataRequired`. -/
def userFormValid (f : UserFormData) : Bool :=
  (dataRequired f.email && is_email f.email) &&
  dataRequired f.password && dataRequired f.name

/-- `LoginForm` validation (forms.py lines 27-28): inherits `UserForm`
but overrides `name` with an unvalidated `HiddenField`, so only email and
password are checked. -/
def loginFormValid (f : UserFormData) : Bool :=
  (dataRequired f.email && is_email f.email) && dataRequired f.password

/-- `CreateCommentForm` validation (forms.py lines 16-18): the body is
`DataRequired`. -/
def createCommentFormValid (body : String) : Bool :=
  dataRequired body

/-- Modelled from the spec: the external salted one-way KDF
`werkzeug.security.generate_password_hash` with `method='pbkdf2:sha256'`
(main.py lines 90-92); the primitive is out-of-scope library code, so it
is modelled as an injective encoding of method, salt and password. -/
def generate_password_hash (password salt : String) : String :=
  "pbkdf2:sha256:" ++ salt ++ "$" ++ password

/-- Modelled from the spec: the external
`werkzeug.security.check_password_hash`; accepts exactly the passwords
whose `generate_password_hash` image (under some salt) is the stored
hash. -/
def check_password_hash (hash password : String) : Bool :=
  match splitOnChar '$' hash.data with
  | [pre, pw] => List.isPrefixOf "pbkdf2:sha256:".data pre && pw == password.data
  | _ => false

/-- `load_user` (main.py lines 80-83) combined with flask-login session
resolution: `current_user` is the stored user whose id the session
cookie names, and is the anonymous placeholder (`none`) when there is no
session or the id no longer resolves. -/
def load_user (s : Store) (sess : Option Nat) : Option User :=
  match sess with
  | none => none
  | some uid => s.users.find? (fun u => u.id == uid)

/-- The `HandlerOut` produced by `abort(403)` inside `admin_only`
(main.py line 76): a Forbidden response, no store change, no flash, no
commit. -/
def abort403 (sess : Option Nat) (s : Store) : HandlerOut :=
  { store := s, sess := sess, response := Response.httpError 403,
    flashes := [], commits := [] }

/-- The `admin_only` decorator (main.py lines 69-77).  Its body is
`try: if current_user.id == 1: return func(...) except AttributeError:
return abort(403)`.  Three cases:
* anonymous session: `current_user.id` raises `AttributeError`, caught,
  `abort(403)`;
* session user with id 1: the wrapped handler runs inside the `try`, so
  an `AttributeError` it raises is also caught and becomes `abort(403)`,
  while any other exception propagates;
* session user with another id: the `if` is false and `inner` falls off
  the end, returning Python `None` (modelled as `Except.ok none`). -/
def admin_only (func : Option Nat → Store → Except PyExc HandlerOut)
    (sess : Option Nat) (s : Store) : Except PyExc (Option HandlerOut) :=
  match load_user s sess with
  | none => Except.ok (some (abort403 sess s))
  | some u =>
    if u.id == 1 then
      match func sess s with
      | Except.ok r => Except.ok (some r)
      | Except.error (PyExc.attributeError _) => Except.ok (some (abort403 sess s))
      | Except.error e => Except.error e
    else
      Except.ok none

/-- Flask's dispatch of a view function's return value: a `None` return
(the fall-through of `admin_only.inner`) makes Flask raise
`TypeError: The view function did not return a valid response`. -/
def dispatch (r : Except PyExc (Option HandlerOut)) : Except PyExc HandlerOut :=
  match r with
  | Except.ok (some h) => Except.ok h
  | Except.ok none =>
      Except.error (PyExc.typeError "The view function did not return a valid response")
  | Except.error e => Except.error e

/-- Handler `register` (main.py lines 86-105).  On a POST whose `UserForm`
validates: hash the password, then `try` to add and commit the new user;
the unique constraint on `users.email` makes the commit raise
`IntegrityError` when a user with that email already exists, which the
handler catches with a flash and a redirect to login, leaving the store
unchanged.  Otherwise the new user (with the hash in its password column)
is committed and the handler redirects to the post list.  `login_user` is
never called.  On GET or failed validation the form is re-rendered. -/
def register (method : Method) (f : UserFormData) (salt : String)
    (sess : Option Nat) (s : Store) : HandlerOut :=
  if method == Method.POST && userFormValid f then
    let pass_hash := generate_password_hash f.password salt
    if s.users.any (fun u => u.email == f.email) then
      { store := s, sess := sess, response := Response.redirect "login",
        flashes := ["This email address is already used"], commits := [] }
    else
      let user : User := { id := s.nextUserId, email := f.email,
                           password := pass_hash, name := f.name }
      let s2 : Store := { s with users := s.users ++ [user],
                                 nextUserId := s.nextUserId + 1 }
      { store := s2, sess := sess, response := Response.redirect "get_all_posts",
        flashes := [], commits := [s2] }
  else
    { store := s, sess := sess, response := Response.render "register.html",
      flashes := [], commits := [] }

/-- Handler `login` (main.py lines 108-122).  On a POST whose `LoginForm`
validates: look the user up by email with `filter_by(...).first()`; if
absent, flash "Email address not found." and redirect to login; if the
stored hash does not check against the submitted password, flash
"Wrong password." and redirect to login; otherwise `login_user` binds the
session to that user and the handler redirects to the post list.  In the
failure branches the session is untouched. -/
def login (method : Method) (f : UserFormData)
    (sess : Option Nat) (s : Store) : HandlerOut :=
  if method == Method.POST && loginFormValid f then
    match s.users.find? (fun u => u.email == f.email) with
    | some user =>
      if check_password_hash user.password f.password then
        { store := s, sess := some user.id,
          response := Response.redirect "get_all_posts",
          flashes := [], commits := [] }
      else
        { store := s, sess := sess, response := Response.redirect "login",
          flashes := ["Wrong password."], commits := [] }
    | none =>
      { store := s, sess := sess, response := Response.redirect "login",
        flashes := ["Email address not found."], commits := [] }
  else
    { store := s, sess := sess, response := Response.render "login.html",
      flashes := [], commits := [] }

/-- Handler `logout` (main.py lines 125-129) behind `@login_required`:
with no resolvable session flask-login rejects the request (no
`login_view` is configured, so it raises Unauthorized, HTTP 401);
otherwise `logout_user` clears the session and the handler redirects to
the post list. -/
def logout (sess : Option Nat) (s : Store) : HandlerOut :=
  match load_user s sess with
  | none =>
    { store := s, sess := sess, response := Response.httpError 401,
      flashes := [], commits := [] }
  | some _ =>
    { store := s, sess := none, response := Response.redirect "get_all_posts",
      flashes := [], commits := [] }

/-- Handler `get_all_posts` (main.py lines 132-135): read-only render of
the post list. -/
def get_all_posts (sess : Option Nat) (s : Store) : HandlerOut :=
  { store := s, sess := sess, response := Response.render "index.html",
    flashes := [], commits := [] }

/-- Handler `show_post` (main.py lines 138-153).  The post is looked up
with the unguarded `BlogPost.query.get(post_id)`.  On a POST whose
comment form validates: if `current_user.is_authenticated`, the handler
builds `Comment(text=...)`, stages it with `db.session.add`, appends it
to `current_user.comments` and to `requested_post.comments` (setting its
`author_id` and `post_id` foreign keys), and only then commits once — so
the single committed snapshot already holds both references.  When the
post id is absent, `requested_post` is `None` and
`requested_post.comments` raises `AttributeError` before the commit.  An
unauthenticated submitter gets a flash and a redirect to login with no
store change.  Any other request renders the post template (with the
absent-post `None` when the id is missing). -/
def show_post (post_id : Nat) (method : Method) (commentBody : String)
    (sess : Option Nat) (s : Store) : Except PyExc HandlerOut :=
  let requested_post := s.posts.find? (fun p => p.id == post_id)
  if method == Method.POST && createCommentFormValid commentBody then
    match load_user s sess with
    | some u =>
      match requested_post with
      | none =>
        Except.error (PyExc.attributeError "NoneType object has no attribute comments")
      | some p =>
        let comment : Comment := { id := s.nextCommentId, author_id := some u.id,
                                   post_id := some p.id, text := commentBody }
        let s2 : Store := { s with comments := s.comments ++ [comment],
                                   nextCommentId := s.nextCommentId + 1 }
        Except.ok { store := s2, sess := sess,
                    response := Response.render "post.html",
                    flashes := [], commits := [s2] }
    | none =>
      Except.ok { store := s, sess := sess, response := Response.redirect "login",
                  flashes := ["Sorry, you need to log in first!"], commits := [] }
  else
    Except.ok { store := s, sess := sess, response := Response.render "post.html",
                flashes := [], commits := [] }

/-- Handler `add_new_post` (main.py lines 156-172), the part inside the
`admin_only` wrapper.  On `validate_on_submit` (POST with every
`CreatePostForm` rule passing) it builds the post with today's date,
appends it to `current_user.posts` (setting `author_id`), stages and
commits it; the unique constraint on `blog_posts.title` makes the commit
raise an uncaught `IntegrityError` when the title already exists.
Otherwise the form template is rendered.  `current_user.posts` on an
anonymous session would raise `AttributeError` (unreachable behind the
gate). -/
def add_new_post (today : String) (method : Method) (f : PostFormData)
    (sess : Option Nat) (s : Store) : Except PyExc HandlerOut :=
  if method == Method.POST && createPostFormValid f then
    match load_user s sess with
    | some u =>
      if s.posts.any (fun p => p.title == f.title) then
        Except.error PyExc.integrityError
      else
        let new_post : BlogPost := { id := s.nextPostId, author_id := some u.id,
                                     title := f.title, subtitle := f.subtitle,
                                     date := today, body := f.body,
                                     img_url := f.img_url }
        let s2 : Store := { s with posts := s.posts ++ [new_post],
                                   nextPostId := s.nextPostId + 1 }
        Except.ok { store := s2, sess := sess,
                    response := Response.redirect "get_all_posts",
                    flashes := [], commits := [s2] }
    | none =>
      Except.error (PyExc.attributeError "AnonymousUserMixin object has no attribute posts")
  else
    Except.ok { store := s, sess := sess, response := Response.render "make-post.html",
                flashes := [], commits := [] }

/-- Handler `edit_post` (main.py lines 175-195), the part inside the
`admin_only` wrapper.  It fetches the post with the unguarded
`BlogPost.query.get(post_id)` and immediately evaluates
`CreatePostForm(title=post.title, ..., author=post.author, ...)`.
When the id is absent, `post` is `None` and `post.title` raises
`AttributeError`.  When the post exists, `post.author` raises
`AttributeError`: `BlogPost` defines no `author` attribute — the
relationship backref from `User.posts` is named `user` (main.py line 45).
Either way the handler raises before reaching the update branch, so the
update and commit code (main.py lines 184-191) is unreachable and the
persisted store is never changed. -/
def edit_post (post_id : Nat) (f : PostFormData)
    (sess : Option Nat) (s : Store) : Except PyExc HandlerOut :=
  match s.posts.find? (fun p => p.id == post_id) with
  | none =>
    Except.error (PyExc.attributeError "NoneType object has no attribute title")
  | some _ =>
    Except.error (PyExc.attributeError "BlogPost object has no attribute author")

/-- Handler `delete_post` (main.py lines 198-204), the part inside the
`admin_only` wrapper.  The unguarded `BlogPost.query.get(post_id)` yields
`None` for an absent id, and `db.session.delete(None)` raises an uncaught
`UnmappedInstanceError`.  For an existing post the row is deleted and the
one commit flushes: the `BlogPost.comments` relationship declares no
delete cascade, so SQLAlchemy de-associates the post's comments by
nulling their `post_id` foreign key; the comment rows themselves, all
other posts and all users are untouched. -/
def delete_post (post_id : Nat)
    (sess : Option Nat) (s : Store) : Except PyExc HandlerOut :=
  match s.posts.find? (fun p => p.id == post_id) with
  | none => Except.error PyExc.unmappedInstanceError
  | some _ =>
    let s2 : Store :=
      { s with posts := s.posts.filter (fun p => p.id != post_id),
               comments := s.comments.map (fun c =>
                 if c.post_id == some post_id then { c with post_id := none } else c) }
    Except.ok { store := s2, sess := sess,
                response := Response.redirect "get_all_posts",
                flashes := [], commits := [s2] }

/-- The `HandlerOut` of a 405 Method Not Allowed produced by the routing
layer before any handler runs. -/
def methodNotAllowed (sess : Option Nat) (s : Store) : HandlerOut :=
  { store := s, sess := sess, response := Response.httpError 405,
    flashes := [], commits := [] }

/-- Route `GET/POST /register`. -/
def route_register (method : Method) (f : UserFormData) (salt : String)
    (sess : Option Nat) (s : Store) : Except PyExc HandlerOut :=
  Except.ok (register method f salt sess s)

/-- Route `GET/POST /login`. -/
def route_login (method : Method) (f : UserFormData)
    (sess : Option Nat) (s : Store) : Except PyExc HandlerOut :=
  Except.ok (login method f sess s)

/-- Route `GET /logout`. -/
def route_logout (method : Method) (sess : Option Nat) (s : Store) :
    Except PyExc HandlerOut :=
  match method with
  | Method.POST => Except.ok (methodNotAllowed sess s)
  | Method.GET => Except.ok (logout sess s)

/-- Route `GET /`. -/
def route_index (method : Method) (sess : Option Nat) (s : Store) :
    Except PyExc HandlerOut :=
  match method with
  | Method.POST => Except.ok (methodNotAllowed sess s)
  | Method.GET => Except.ok (get_all_posts sess s)

/-- Route `GET/POST /post/<int:post_id>`. -/
def route_show_post (post_id : Nat) (method : Method) (commentBody : String)
    (sess : Option Nat) (s : Store) : Except PyExc HandlerOut :=
  show_post post_id method commentBody sess s

/-- Route `GET/POST /new-post`, wrapped in `admin_only`. -/
def route_new_post (today : String) (method : Method) (f : PostFormData)
    (sess : Option Nat) (s : Store) : Except PyExc HandlerOut :=
  dispatch (admin_only (add_new_post today method f) sess s)

/-- Route `/edit-post/<int:post_id>` (main.py line 175): registered with
no `methods` argument, so only GET is allowed and a POST is rejected by
the routing layer with 405 before `admin_only` or the handler runs.  The
GET goes through `admin_only` into `edit_post`. -/
def route_edit_post (post_id : Nat) (method : Method) (f : PostFormData)
    (sess : Option Nat) (s : Store) : Except PyExc HandlerOut :=
  match method with
  | Method.POST => Except.ok (methodNotAllowed sess s)
  | Method.GET => dispatch (admin_only (edit_post post_id f) sess s)

/-- Route `GET /delete/<int:post_id>`, wrapped in `admin_only`; like
`edit-post` the route only allows GET. -/
def route_delete_post (post_id : Nat) (method : Method)
    (sess : Option Nat) (s : Store) : Except PyExc HandlerOut :=
  match method with
  | Method.POST => Except.ok (methodNotAllowed sess s)
  | Method.GET => dispatch (admin_only (delete_post post_id) sess s)

/-! ### Concrete fixtures used by witnesses and counterexamples -/

/-- A store user with the admin id 1. -/
def adminUser : User :=
  { id := 1, email := "admin@blog.com",
    password := generate_password_hash "adminpw" "salt1", name := "Admin" }

/-- A store user with a non-admin id. -/
def aliceUser : User :=
  { id := 2, email := "a@x.com",
    password := generate_password_hash "pw" "salt2", name := "Alice" }

/-- A post owned by the admin. -/
def postOne : BlogPost :=
  { id := 1, author_id := some 1, title := "First", subtitle := "Sub",
    date := "July 28, 2022", body := "Hello", img_url := "http://img.example.com/a.png" }

/-- A comment by Alice on `postOne`. -/
def commentOne : Comment :=
  { id := 1, author_id := some 2, post_id := some 1, text := "hi" }

/-- A concrete store with an admin, a non-admin, one post and one comment. -/
def baseStore : Store :=
  { users := [adminUser, aliceUser], posts := [postOne], comments := [commentOne],
    nextUserId := 3, nextPostId := 2, nextCommentId := 2 }

/-- A `CreatePostForm` submission passing every declared rule. -/
def validPostForm : PostFormData :=
  { title := "Second", subtitle := "Another", img_url := "http://img.example.com/b.png",
    body := "World" }

/-- A `CreatePostForm` submission whose image field is not URL-shaped
(every other rule passes). -/
def badImagePostForm : PostFormData :=
  { title := "Second", subtitle := "Another", img_url := "not a url", body := "World" }

/-- `baseStore` after the admin successfully creates `validPostForm`. -/
def baseStorePlusPost : Store :=
  { baseStore with
      posts := baseStore.posts ++
        [{ id := 2, author_id := some 1, title := "Second", subtitle := "Another",
           date := "August 01, 2022", body := "World",
           img_url := "http://img.example.com/b.png" }],
      nextPostId := 3 }

/-- `baseStore` after Alice (user 2) successfully comments "nice" on
post 1: the single committed snapshot of that request. -/
def baseStorePlusComment : Store :=
  { baseStore with
      comments := baseStore.comments ++
        [{ id := 2, author_id := some 2, post_id := some 1, text := "nice" }],
      nextCommentId := 3 }

/-- Holds when a route result performed at most one store commit. -/
def atMostOneCommit : Except PyExc HandlerOut → Prop
  | Except.ok o => o.commits.length ≤ 1
  | Except.error _ => True

/-- The user row `register` inserts for submission `f` (before the
autoincrement bump): fresh id, submitted email and name, hashed
password. -/
def registeredUser (f : UserFormData) (salt : String) (s : Store) : User :=
  { id := s.nextUserId, email := f.email,
    password := generate_password_hash f.password salt, name := f.name }

/-- The store committed by a fresh-email registration. -/
def registeredStore (f : UserFormData) (salt : String) (s : Store) : Store :=
  { s with users := s.users ++ [registeredUser f salt s],
           nextUserId := s.nextUserId + 1 }

/-! ### Claim theorems -/

/-- C1 (code_bug evaluation): behaviour of the `admin_only` gate on the
create-post route at a concrete store.  The admin session (user id 1)
reaches the handler and the post is created; an anonymous session gets
`abort(403)` with the store unchanged; but a logged-in non-admin session
(user id 2) does NOT get Forbidden: `admin_only.inner` falls through and
returns `None`, so Flask raises `TypeError` — a 500 server error — against
the claim's (and spec §4.1/§8's) required 403.  The handler never
executes and the store is unchanged in both non-admin cases. -/
theorem C1_admin_gate_eval :
    route_new_post "August 01, 2022" Method.POST validPostForm (some 1) baseStore =
      Except.ok { store := baseStorePlusPost, sess := some 1,
                  response := Response.redirect "get_all_posts",
                  flashes := [], commits := [baseStorePlusPost] } ∧
    route_new_post "August 01, 2022" Method.POST validPostForm none baseStore =
      Except.ok (abort403 none baseStore) ∧
    (abort403 none baseStore).store = baseStore ∧
    route_new_post "August 01, 2022" Method.POST validPostForm (some 2) baseStore =
      Except.error (PyExc.typeError "The view function did not return a valid response") := by
  decide

/-- C2 (confirmed): with a validating registration form, (a) when the
store already holds exactly one user with the submitted email, the second
registration fails — the commit's uniqueness violation is caught, the
handler flashes "This email address is already used" and redirects to
login — the store is returned unchanged with no commit (no partial
record) and still holds exactly one user with that email; (b) with a
fresh email exactly one new User is appended whose password column holds
the salted one-way hash of the submitted password, the handler redirects
to the post list, and the single commit is the resulting store. -/
theorem C2_register_unique_email (f : UserFormData) (salt : String)
    (sess : Option Nat) (s : Store) (hv : userFormValid f = true) :
    (s.users.countP (fun u => u.email == f.email) = 1 →
       register Method.POST f salt sess s =
         { store := s, sess := sess, response := Response.redirect "login",
           flashes := ["This email address is already used"], commits := [] } ∧
       (register Method.POST f salt sess s).store.users.countP
           (fun u => u.email == f.email) = 1) ∧
    ((∀ u ∈ s.users, u.email ≠ f.email) →
       (register Method.POST f salt sess s).store.users =
         s.users ++ [{ id := s.nextUserId, email := f.email,
                       password := generate_password_hash f.password salt,
                       name := f.name }] ∧
       (register Method.POST f salt sess s).response =
         Response.redirect "get_all_posts" ∧
       (register Method.POST f salt sess s).commits =
         [(register Method.POST f salt sess s).store]) := by
  constructor
  · intro h1
    have hpos : 0 < s.users.countP (fun u => u.email == f.email) := by omega
    have hex := List.countP_pos_iff.mp hpos
    have hany : (s.users.any fun u => u.email == f.email) = true := by
      rw [List.any_eq_true]
      obtain ⟨u, hu, hpu⟩ := hex
      exact ⟨u, hu, hpu⟩
    have hreg : register Method.POST f salt sess s =
        { store := s, sess := sess, response := Response.redirect "login",
          flashes := ["This email address is already used"], commits := [] } := by
      unfold register
      simp [hv, hany]
    exact ⟨hreg, by rw [hreg]; exact h1⟩
  · intro h2
    have hany : (s.users.any fun u => u.email == f.email) = false := by
      rw [List.any_eq_false]
      intro u hu
      simp [h2 u hu]
    have hreg : register Method.POST f salt sess s =
        { store := registeredStore f salt s,
          sess := sess, response := Response.redirect "get_all_posts",
          flashes := [], commits := [registeredStore f salt s] } := by
      unfold register registeredStore registeredUser
      simp [hv, hany]
    rw [hreg]
    exact ⟨rfl, rfl, rfl⟩

/-- Witness for C2: at `baseStore`, re-registering Alice's email fails
with the duplicate-email flash and leaves exactly one user with that
email, while registering a fresh email appends exactly the hashed-password
user. -/
theorem C2_register_unique_email_witness :
    (register Method.POST { email := "a@x.com", password := "pw9", name := "Al" }
        "salt9" none baseStore =
       { store := baseStore, sess := none, response := Response.redirect "login",
         flashes := ["This email address is already used"], commits := [] } ∧
     (register Method.POST { email := "a@x.com", password := "pw9", name := "Al" }
        "salt9" none baseStore).store.users.countP
          (fun u => u.email == "a@x.com") = 1) ∧
    ((register Method.POST { email := "c@x.com", password := "pw9", name := "Carl" }
        "salt9" none baseStore).store.users =
       baseStore.users ++ [{ id := 3, email := "c@x.com",
                             password := generate_password_hash "pw9" "salt9",
                             name := "Carl" }] ∧
     (register Method.POST { email := "c@x.com", password := "pw9", name := "Carl" }
        "salt9" none baseStore).response = Response.redirect "get_all_posts" ∧
     (register Method.POST { email := "c@x.com", password := "pw9", name := "Carl" }
        "salt9" none baseStore).commits =
       [(register Method.POST { email := "c@x.com", password := "pw9", name := "Carl" }
          "salt9" none baseStore).store]) := by
  constructor
  · exact (C2_register_unique_email
      { email := "a@x.com", password := "pw9", name := "Al" } "salt9" none baseStore
      (by decide)).1 (by decide)
  · exact (C2_register_unique_email
      { email := "c@x.com", password := "pw9", name := "Carl" } "salt9" none baseStore
      (by decide)).2 (by decide)

/-- C3 (confirmed): for a validating login submission, (a) when no user
holds the submitted email the handler flashes "Email address not found."
and redirects to login with the session untouched; (b) when the user
exists but the stored hash rejects the submitted password the handler
flashes "Wrong password." and redirects to login with the session
untouched; (c) only when the hash accepts the password is the session
bound to that user's id, with a redirect to the post list.  The store is
unchanged in all three cases. -/
theorem C3_login_cases (f : UserFormData) (sess : Option Nat) (s : Store)
    (hv : loginFormValid f = true) :
    (s.users.find? (fun u => u.email == f.email) = none →
       login Method.POST f sess s =
         { store := s, sess := sess, response := Response.redirect "login",
           flashes := ["Email address not found."], commits := [] }) ∧
    (∀ u, s.users.find? (fun v => v.email == f.email) = some u →
       (check_password_hash u.password f.password = false →
          login Method.POST f sess s =
            { store := s, sess := sess, response := Response.redirect "login",
              flashes := ["Wrong password."], commits := [] }) ∧
       (check_password_hash u.password f.password = true →
          login Method.POST f sess s =
            { store := s, sess := some u.id,
              response := Response.redirect "get_all_posts",
              flashes := [], commits := [] })) := by
  refine ⟨?_, ?_⟩
  · intro hnone
    unfold login
    simp [hv, hnone]
  · intro u hu
    refine ⟨?_, ?_⟩
    · intro hck
      unfold login
      simp [hv, hu, hck]
    · intro hck
      unfold login
      simp [hv, hu, hck]

/-- Witness for C3 at `baseStore`: an unknown email is turned away, a
wrong password for Alice is turned away without a session, and Alice's
correct password binds the session to her id. -/
theorem C3_login_cases_witness :
    login Method.POST { email := "z@x.com", password := "pw", name := "" } none baseStore =
      { store := baseStore, sess := none, response := Response.redirect "login",
        flashes := ["Email address not found."], commits := [] } ∧
    login Method.POST { email := "a@x.com", password := "wrong", name := "" } none baseStore =
      { store := baseStore, sess := none, response := Response.redirect "login",
        flashes := ["Wrong password."], commits := [] } ∧
    login Method.POST { email := "a@x.com", password := "pw", name := "" } none baseStore =
      { store := baseStore, sess := some 2,
        response := Response.redirect "get_all_posts", flashes := [], commits := [] } := by
  refine ⟨?_, ?_, ?_⟩
  · exact (C3_login_cases { email := "z@x.com", password := "pw", name := "" }
      none baseStore (by decide)).1 (by decide)
  · exact ((C3_login_cases { email := "a@x.com", password := "wrong", name := "" }
      none baseStore (by decide)).2 aliceUser (by decide)).1 (by decide)
  · exact ((C3_login_cases { email := "a@x.com", password := "pw", name := "" }
      none baseStore (by decide)).2 aliceUser (by decide)).2 (by decide)

/-- C4 (confirmed): a valid comment submission on an existing post by a
request with no authenticated session creates no comment row — the store
is returned unchanged with no commit — and the response is a redirect to
the login page with the flash "Sorry, you need to log in first!". -/
theorem C4_unauthenticated_comment (pid : Nat) (body : String)
    (sess : Option Nat) (s : Store)
    (hv : createCommentFormValid body = true)
    (hanon : load_user s sess = none)
    (_hex : ∃ p ∈ s.posts, p.id = pid) :
    route_show_post pid Method.POST body sess s =
      Except.ok { store := s, sess := sess, response := Response.redirect "login",
                  flashes := ["Sorry, you need to log in first!"], commits := [] } := by
  unfold route_show_post show_post
  rw [hanon]
  simp [hv]

/-- Witness for C4 at the concrete `baseStore`: an anonymous visitor
submits the comment "nice" on existing post 1. -/
theorem C4_unauthenticated_comment_witness :
    route_show_post 1 Method.POST "nice" none baseStore =
      Except.ok { store := baseStore, sess := none,
                  response := Response.redirect "login",
                  flashes := ["Sorry, you need to log in first!"], commits := [] } :=
  C4_unauthenticated_comment 1 "nice" none baseStore (by decide) (by decide)
    ⟨postOne, by decide, by decide⟩

/-- C6 (code_bug evaluation): the edit-post route can never update a
post.  At a concrete store with an admin session and an existing post:
a GET (the only method the route registers) evaluates
`CreatePostForm(..., author=post.author, ...)`, and `post.author` raises
`AttributeError` because `BlogPost` has no `author` attribute (the
`User.posts` backref is named `user`), which `admin_only` catches and
turns into `abort(403)`; a POST (a form submission) is rejected by the
routing layer with 405 because the route registers no `methods`.  In
either case the store is unchanged and no field is updated, against the
claim's update-and-redirect. -/
theorem C6_edit_post_eval :
    (∃ p ∈ baseStore.posts, p.id = 1) ∧
    route_edit_post 1 Method.GET validPostForm (some 1) baseStore =
      Except.ok (abort403 (some 1) baseStore) ∧
    (abort403 (some 1) baseStore).store = baseStore ∧
    (abort403 (some 1) baseStore).response = Response.httpError 403 ∧
    route_edit_post 1 Method.POST validPostForm (some 1) baseStore =
      Except.ok (methodNotAllowed (some 1) baseStore) ∧
    (methodNotAllowed (some 1) baseStore).store = baseStore := by
  decide

/-- C10 (confirmed): the register handler never touches the session —
for every input its resulting session equals the incoming session (in
particular a successful registration leaves the visitor anonymous), and
when the resulting session is anonymous a subsequent valid comment
submission against the resulting store is still turned away to the login
page, so a separate login is required before any authenticated action. -/
theorem C10_register_keeps_session (method : Method) (f : UserFormData)
    (salt : String) (sess : Option Nat) (s : Store) :
    (register method f salt sess s).sess = sess ∧
    ((register method f salt sess s).sess = none →
      ∀ pid body, createCommentFormValid body = true →
        route_show_post pid Method.POST body (register method f salt sess s).sess
            (register method f salt sess s).store =
          Except.ok { store := (register method f salt sess s).store,
                      sess := none, response := Response.redirect "login",
                      flashes := ["Sorry, you need to log in first!"],
                      commits := [] }) := by
  have hs : (register method f salt sess s).sess = sess := by
    unfold register
    split_ifs <;> rfl
  refine ⟨hs, ?_⟩
  intro hnone pid body hv
  rw [hnone]
  unfold route_show_post show_post load_user
  simp [hv]

/-- Witness for C10: registering a fresh user from an anonymous session
at `baseStore` leaves the session anonymous, and a following comment
submission is redirected to login. -/
theorem C10_register_keeps_session_witness :
    (register Method.POST { email := "c@x.com", password := "pw9", name := "Carl" }
        "salt9" none baseStore).sess = none ∧
    route_show_post 1 Method.POST "nice"
        (register Method.POST { email := "c@x.com", password := "pw9", name := "Carl" }
          "salt9" none baseStore).sess
        (register Method.POST { email := "c@x.com", password := "pw9", name := "Carl" }
          "salt9" none baseStore).store =
      Except.ok { store := (register Method.POST
                    { email := "c@x.com", password := "pw9", name := "Carl" }
                    "salt9" none baseStore).store,
                  sess := none, response := Response.redirect "login",
                  flashes := ["Sorry, you need to log in first!"], commits := [] } := by
  have h := C10_register_keeps_session Method.POST
    { email := "c@x.com", password := "pw9", name := "Carl" } "salt9" none baseStore
  exact ⟨h.1, h.2 h.1 1 "nice" (by decide)⟩

/-- C5 counterexample: the claim quantifies over every create/edit form
submission with a failing field rule and asserts the handler re-presents
the form.  An edit-post submission (POST) with a non-URL image field is
instead rejected by the routing layer with 405 Method Not Allowed — the
route registers only GET — so no form is re-presented. -/
theorem C5_counterexample :
    createPostFormValid badImagePostForm = false ∧
    route_edit_post 1 Method.POST badImagePostForm (some 1) baseStore =
      Except.ok (methodNotAllowed (some 1) baseStore) ∧
    (∀ t, (methodNotAllowed (some 1) baseStore).response ≠ Response.render t) := by
  refine ⟨by decide, by decide, ?_⟩
  intro t h
  simp [methodNotAllowed] at h

/-- C5 (amended): for create-post submissions by the admin, a submission
failing any declared rule mutates nothing and re-presents the form, and a
submission that changes the store must have passed every rule; edit-post
submissions never reach validation — every POST to the edit route is
rejected with 405 and the store is unchanged. -/
theorem C5_validation_gate (today : String) (f : PostFormData)
    (sess : Option Nat) (s : Store) (u : User)
    (hadmin : load_user s sess = some u) (hu1 : u.id = 1) :
    (createPostFormValid f = false →
       route_new_post today Method.POST f sess s =
         Except.ok { store := s, sess := sess,
                     response := Response.render "make-post.html",
                     flashes := [], commits := [] }) ∧
    (∀ out, route_new_post today Method.POST f sess s = Except.ok out →
       out.store ≠ s → createPostFormValid f = true) ∧
    (∀ pid g sess2, route_edit_post pid Method.POST g sess2 s =
       Except.ok (methodNotAllowed sess2 s)) := by
  have hrender : createPostFormValid f = false →
      route_new_post today Method.POST f sess s =
        Except.ok { store := s, sess := sess,
                    response := Response.render "make-post.html",
                    flashes := [], commits := [] } := by
    intro hinv
    unfold route_new_post dispatch admin_only add_new_post
    simp [hadmin, hu1, hinv]
  refine ⟨hrender, ?_, ?_⟩
  · intro out hout hne
    by_cases hval : createPostFormValid f = true
    · exact hval
    · rw [hrender (by simpa using hval)] at hout
      cases hout
      exact absurd rfl hne
  · intro pid g sess2
    rfl

/-- Witness for C5 at `baseStore`: the admin submits a create form whose
image field is not URL-shaped and gets the form back with the store
untouched; a POST of a fully valid form to the edit route still gets
405. -/
theorem C5_validation_gate_witness :
    route_new_post "August 01, 2022" Method.POST badImagePostForm (some 1) baseStore =
      Except.ok { store := baseStore, sess := some 1,
                  response := Response.render "make-post.html",
                  flashes := [], commits := [] } ∧
    route_edit_post 1 Method.POST validPostForm (some 2) baseStore =
      Except.ok (methodNotAllowed (some 2) baseStore) := by
  refine ⟨?_, ?_⟩
  · exact (C5_validation_gate "August 01, 2022" badImagePostForm (some 1) baseStore
      adminUser (by decide) (by decide)).1 (by decide)
  · exact (C5_validation_gate "August 01, 2022" badImagePostForm (some 1) baseStore
      adminUser (by decide) (by decide)).2.2 1 validPostForm (some 2)

/-- C7 counterexample: the claim asserts every fetch of an absent post id
(view, edit, or delete) produces a 404-equivalent outcome or surfaces as
a server error.  No handler of this program ever produces an explicit
404, so the claim's outcome can only be a surfaced error
(`Except.error`).  But the admin's edit request for the absent post id 5
does not error: the `AttributeError` from dereferencing the absent record
is caught by `admin_only` and turned into a 403 Forbidden response. -/
theorem C7_counterexample :
    baseStore.posts.find? (fun p => p.id == 5) = none ∧
    route_edit_post 5 Method.GET validPostForm (some 1) baseStore =
      Except.ok (abort403 (some 1) baseStore) ∧
    (¬ ∃ e, route_edit_post 5 Method.GET validPostForm (some 1) baseStore =
        Except.error e) ∧
    (abort403 (some 1) baseStore).response = Response.httpError 403 := by
  have h2 : route_edit_post 5 Method.GET validPostForm (some 1) baseStore =
      Except.ok (abort403 (some 1) baseStore) := by decide
  refine ⟨by decide, h2, ?_, by decide⟩
  rintro ⟨e, he⟩
  rw [h2] at he
  cases he

/-- C7 (amended): every fetch of an absent post id returns the absent
record (the unguarded lookup makes this branch reachable) and no handler
behaves as if the post existed or mutates the store: delete surfaces an
uncaught `UnmappedInstanceError`, an authenticated comment submission
surfaces an uncaught `AttributeError`, a view GET renders the post
template over the absent record with the store unchanged, and the admin's
edit request yields 403 because its attribute-access failure is swallowed
by the admin gate — 403, not a 404 or a server error, being the deviation
that forced the amendment. -/
theorem C7_absent_post (pid : Nat) (body : String) (f : PostFormData)
    (sess2 : Option Nat) (s : Store) (u v : User)
    (habs : s.posts.find? (fun p => p.id == pid) = none)
    (hadmin : load_user s (some 1) = some u)
    (hauth : load_user s sess2 = some v)
    (hb : createCommentFormValid body = true) :
    route_delete_post pid Method.GET (some 1) s =
      Except.error PyExc.unmappedInstanceError ∧
    route_show_post pid Method.POST body sess2 s =
      Except.error (PyExc.attributeError "NoneType object has no attribute comments") ∧
    (∀ sess3, route_show_post pid Method.GET body sess3 s =
       Except.ok { store := s, sess := sess3,
                   response := Response.render "post.html",
                   flashes := [], commits := [] }) ∧
    route_edit_post pid Method.GET f (some 1) s =
      Except.ok (abort403 (some 1) s) := by
  have h1 : s.users.find? (fun w => w.id == 1) = some u := hadmin
  have hu1 := List.find?_some h1
  have hu1' : u.id = 1 := by simpa using hu1
  refine ⟨?_, ?_, ?_, ?_⟩
  · unfold route_delete_post dispatch admin_only delete_post
    simp [hadmin, hu1', habs]
  · unfold route_show_post show_post
    simp [hb, hauth, habs]
  · intro sess3
    unfold route_show_post show_post
    simp [habs]
  · unfold route_edit_post dispatch admin_only edit_post
    simp [hadmin, hu1', habs]

/-- Witness for C7 at `baseStore` with the absent post id 5: the admin
session for delete and edit, and Alice's session for the comment
submission. -/
theorem C7_absent_post_witness :
    route_delete_post 5 Method.GET (some 1) baseStore =
      Except.error PyExc.unmappedInstanceError ∧
    route_show_post 5 Method.POST "nice" (some 2) baseStore =
      Except.error (PyExc.attributeError "NoneType object has no attribute comments") ∧
    (∀ sess3, route_show_post 5 Method.GET "nice" sess3 baseStore =
       Except.ok { store := baseStore, sess := sess3,
                   response := Response.render "post.html",
                   flashes := [], commits := [] }) ∧
    route_edit_post 5 Method.GET validPostForm (some 1) baseStore =
      Except.ok (abort403 (some 1) baseStore) :=
  C7_absent_post 5 "nice" validPostForm (some 2) baseStore adminUser aliceUser
    (by decide) (by decide) (by decide) (by decide)

/-- C8 counterexample: the claim asserts the comment-creation path spans
two commits, leaving a window in which a comment is persisted without its
references.  At a concrete authenticated comment submission the request
performs exactly one commit — not two — and every comment in the single
committed snapshot already carries both its author and post
references. -/
theorem C8_counterexample :
    route_show_post 1 Method.POST "nice" (some 2) baseStore =
      Except.ok { store := baseStorePlusComment, sess := some 2,
                  response := Response.render "post.html",
                  flashes := [], commits := [baseStorePlusComment] } ∧
    [baseStorePlusComment].length = 1 ∧
    [baseStorePlusComment].length ≠ 2 ∧
    (baseStorePlusComment.comments.all
       (fun c => c.author_id.isSome && c.post_id.isSome)) = true := by
  decide

/-- C8 (amended): every handler performs at most one store commit per
request, including the comment-creation path, which builds the comment
with only a body but attaches both the author and post references before
its single commit — so no committed snapshot ever holds a comment missing
its references (every comment new in a committed snapshot of the
comment path has both its author and post set). -/
theorem C8_single_commit_per_request :
    (∀ method f salt sess s, atMostOneCommit (route_register method f salt sess s)) ∧
    (∀ method f sess s, atMostOneCommit (route_login method f sess s)) ∧
    (∀ method sess s, atMostOneCommit (route_logout method sess s)) ∧
    (∀ method sess s, atMostOneCommit (route_index method sess s)) ∧
    (∀ pid method body sess s, atMostOneCommit (route_show_post pid method body sess s)) ∧
    (∀ today method f sess s, atMostOneCommit (route_new_post today method f sess s)) ∧
    (∀ pid method f sess s, atMostOneCommit (route_edit_post pid method f sess s)) ∧
    (∀ pid method sess s, atMostOneCommit (route_delete_post pid method sess s)) ∧
    (∀ pid method body sess s out,
       route_show_post pid method body sess s = Except.ok out →
       ∀ cs ∈ out.commits, ∀ c ∈ cs.comments, c ∉ s.comments →
         c.author_id.isSome = true ∧ c.post_id.isSome = true) := by
  refine ⟨?_, ?_, ?_, ?_, ?_, ?_, ?_, ?_, ?_⟩
  · intro method f salt sess s
    unfold route_register register
    cases hcond : (method == Method.POST && userFormValid f) with
    | false => simp [atMostOneCommit, hcond]
    | true =>
      cases hdup : (s.users.any fun u => u.email == f.email) with
      | true => simp [atMostOneCommit, hcond, hdup]
      | false => simp [atMostOneCommit, hcond, hdup]
  · intro method f sess s
    unfold route_login login
    cases hcond : (method == Method.POST && loginFormValid f) with
    | false => simp [atMostOneCommit, hcond]
    | true =>
      rcases hfind : s.users.find? (fun u => u.email == f.email) with _ | u
      · simp [atMostOneCommit, hcond, hfind]
      · cases hck : check_password_hash u.password f.password with
        | true => simp [atMostOneCommit, hcond, hfind, hck]
        | false => simp [atMostOneCommit, hcond, hfind, hck]
  · intro method sess s
    cases method with
    | POST => simp [route_logout, atMostOneCommit, methodNotAllowed]
    | GET =>
      unfold route_logout logout
      rcases hload : load_user s sess with _ | u <;> simp [atMostOneCommit, hload]
  · intro method sess s
    cases method with
    | POST => simp [route_index, atMostOneCommit, methodNotAllowed]
    | GET => simp [route_index, get_all_posts, atMostOneCommit]
  · intro pid method body sess s
    unfold route_show_post show_post
    cases hcond : (method == Method.POST && createCommentFormValid body) with
    | false => simp [atMostOneCommit, hcond]
    | true =>
      rcases hload : load_user s sess with _ | u
      · simp [atMostOneCommit, hcond, hload]
      · rcases hfind : s.posts.find? (fun p => p.id == pid) with _ | p
        · simp [atMostOneCommit, hcond, hload, hfind]
        · simp [atMostOneCommit, hcond, hload, hfind]
  · intro today method f sess s
    unfold route_new_post dispatch admin_only add_new_post
    rcases hload : load_user s sess with _ | u
    · simp [atMostOneCommit, hload, abort403]
    · by_cases hadm : u.id = 1
      · cases hcond : (method == Method.POST && createPostFormValid f) with
        | false => simp [atMostOneCommit, hload, hadm, hcond]
        | true =>
          cases hdup : (s.posts.any fun p => p.title == f.title) with
          | true => simp [atMostOneCommit, hload, hadm, hcond, hdup]
          | false => simp [atMostOneCommit, hload, hadm, hcond, hdup]
      · simp [atMostOneCommit, hload, hadm]
  · intro pid method f sess s
    cases method with
    | POST => simp [route_edit_post, atMostOneCommit, methodNotAllowed]
    | GET =>
      unfold route_edit_post dispatch admin_only edit_post
      rcases hload : load_user s sess with _ | u
      · simp [atMostOneCommit, hload, abort403]
      · by_cases hadm : u.id = 1
        · rcases hfind : s.posts.find? (fun p => p.id == pid) with _ | p
          · simp [atMostOneCommit, hload, hadm, hfind, abort403]
          · simp [atMostOneCommit, hload, hadm, hfind, abort403]
        · simp [atMostOneCommit, hload, hadm]
  · intro pid method sess s
    cases method with
    | POST => simp [route_delete_post, atMostOneCommit, methodNotAllowed]
    | GET =>
      unfold route_delete_post dispatch admin_only delete_post
      rcases hload : load_user s sess with _ | u
      · simp [atMostOneCommit, hload, abort403]
      · by_cases hadm : u.id = 1
        · rcases hfind : s.posts.find? (fun p => p.id == pid) with _ | p
          · simp [atMostOneCommit, hload, hadm, hfind]
          · simp [atMostOneCommit, hload, hadm, hfind]
        · simp [atMostOneCommit, hload, hadm]
  · intro pid method body sess s out hout cs hcs c hc hnotin
    unfold route_show_post show_post at hout
    cases hcond : (method == Method.POST && createCommentFormValid body) with
    | false =>
      simp [hcond] at hout
      subst hout
      simp at hcs
    | true =>
      rcases hload : load_user s sess with _ | u
      · simp [hcond, hload] at hout
        subst hout
        simp at hcs
      · rcases hfind : s.posts.find? (fun p => p.id == pid) with _ | p
        · simp [hcond, hload, hfind] at hout
        · simp [hcond, hload, hfind] at hout
          subst hout
          simp only [List.mem_singleton] at hcs
          subst hcs
          simp only [] at hc
          rcases List.mem_append.mp hc with h | h
          · exact absurd h hnotin
          · simp only [List.mem_singleton] at h
            subst h
            exact ⟨rfl, rfl⟩

/-- Witness for C8: the at-most-one-commit bound evaluated on Alice's
concrete comment submission, and the fully-referenced shape of the one
comment that submission commits. -/
theorem C8_single_commit_per_request_witness :
    atMostOneCommit (route_show_post 1 Method.POST "nice" (some 2) baseStore) ∧
    (({ id := 2, author_id := some 2, post_id := some 1, text := "nice" } :
        Comment).author_id.isSome = true ∧
     ({ id := 2, author_id := some 2, post_id := some 1, text := "nice" } :
        Comment).post_id.isSome = true) := by
  refine ⟨C8_single_commit_per_request.2.2.2.2.1 1 Method.POST "nice" (some 2) baseStore, ?_⟩
  exact C8_single_commit_per_request.2.2.2.2.2.2.2.2 1 Method.POST "nice" (some 2) baseStore
    ⟨baseStorePlusComment, some 2, Response.render "post.html", [], [baseStorePlusComment]⟩
    (by decide) baseStorePlusComment (by decide)
    { id := 2, author_id := some 2, post_id := some 1, text := "nice" }
    (by decide) (by decide)

/-- C9 (confirmed): with an admin session and pairwise-distinct post ids,
deleting an existing post removes exactly that post row: the row is gone,
every other post survives, nothing new appears, all users are unchanged,
and the comment rows — including those that referenced the deleted post,
which are not cascaded — all remain with their id, author and text
intact; the handler responds with a redirect to the post list in its
single commit. -/
theorem C9_delete_post_frame (pid : Nat) (s : Store) (p : BlogPost) (u : User)
    (hnd : (s.posts.map BlogPost.id).Nodup)
    (hmem : p ∈ s.posts) (hid : p.id = pid)
    (hadmin : load_user s (some 1) = some u) :
    ∃ out, route_delete_post pid Method.GET (some 1) s = Except.ok out ∧
      p ∉ out.store.posts ∧
      (∀ q ∈ s.posts, q ≠ p → q ∈ out.store.posts) ∧
      (∀ q ∈ out.store.posts, q ∈ s.posts ∧ q ≠ p) ∧
      out.store.users = s.users ∧
      out.store.comments.length = s.comments.length ∧
      (∀ c ∈ s.comments, ∃ d ∈ out.store.comments,
         d.id = c.id ∧ d.author_id = c.author_id ∧ d.text = c.text) ∧
      out.response = Response.redirect "get_all_posts" ∧
      out.commits = [out.store] := by
  have h1 : s.users.find? (fun w => w.id == 1) = some u := hadmin
  have hu1 := List.find?_some h1
  have hu1' : u.id = 1 := by simpa using hu1
  have hfind : ∃ q, s.posts.find? (fun r => r.id == pid) = some q := by
    have hsome : (s.posts.find? (fun r => r.id == pid)).isSome := by
      rw [List.find?_isSome]
      exact ⟨p, hmem, by simp [hid]⟩
    exact Option.isSome_iff_exists.mp hsome
  obtain ⟨q, hq⟩ := hfind
  have hroute : route_delete_post pid Method.GET (some 1) s =
      Except.ok
        { store := { s with posts := s.posts.filter (fun r => r.id != pid),
                            comments := s.comments.map (fun c =>
                              if c.post_id == some pid then { c with post_id := none }
                              else c) },
          sess := some 1, response := Response.redirect "get_all_posts",
          flashes := [],
          commits := [{ s with posts := s.posts.filter (fun r => r.id != pid),
                               comments := s.comments.map (fun c =>
                                 if c.post_id == some pid then { c with post_id := none }
                                 else c) }] } := by
    unfold route_delete_post dispatch admin_only delete_post
    simp [hadmin, hu1', hq]
  refine ⟨_, hroute, ?_, ?_, ?_, rfl, by simp, ?_, rfl, rfl⟩
  · intro hpmem
    have := (List.mem_filter.mp hpmem).2
    simp [hid] at this
  · intro r hr hne
    refine List.mem_filter.mpr ⟨hr, ?_⟩
    simp only [bne_iff_ne, ne_eq]
    intro hrid
    exact hne (List.inj_on_of_nodup_map hnd hr hmem (by rw [hrid, hid]))
  · intro r hr
    have hm := List.mem_filter.mp hr
    refine ⟨hm.1, ?_⟩
    intro hrp
    subst hrp
    have := hm.2
    simp [hid] at this
  · intro c hc
    refine ⟨if c.post_id == some pid then { c with post_id := none } else c,
            List.mem_map_of_mem _ hc, ?_⟩
    split <;> exact ⟨rfl, rfl, rfl⟩

/-- Witness for C9: the admin deletes post 1 at `baseStore`; the post row
is gone, Alice's comment on it survives, and users are untouched. -/
theorem C9_delete_post_frame_witness :
    ∃ out, route_delete_post 1 Method.GET (some 1) baseStore = Except.ok out ∧
      postOne ∉ out.store.posts ∧
      (∀ q ∈ baseStore.posts, q ≠ postOne → q ∈ out.store.posts) ∧
      (∀ q ∈ out.store.posts, q ∈ baseStore.posts ∧ q ≠ postOne) ∧
      out.store.users = baseStore.users ∧
      out.store.comments.length = baseStore.comments.length ∧
      (∀ c ∈ baseStore.comments, ∃ d ∈ out.store.comments,
         d.id = c.id ∧ d.author_id = c.author_id ∧ d.text = c.text) ∧
      out.response = Response.redirect "get_all_posts" ∧
      out.commits = [out.store] :=
  C9_delete_post_frame 1 baseStore postOne adminUser (by decide) (by decide)
    (by decide) (by decide)

end BlogApp
